import Mathlib

/-!
Verification of the movie-night event application (src/app.py).

The embedding models, directly from the source:
- the persisted data model (Movie, Pick, Event) and the event store
  (a single document mapping event id to event, as an association list
  with dictionary update semantics),
- the TMDB metadata helpers (tmdb_movie_details, tmdb_search_first,
  tmdb_search) over an explicit fetch outcome that stands for the HTTP
  call made by tmdb_get: a successful call yields the parsed payload,
  any failure (network error, non-2xx status via raise_for_status,
  malformed JSON) is the error case,
- the request handlers create_event, submit_picks and finalize_event.
  Randomness (uuid4 id generation, random.choice) enters as an explicit
  oracle argument; the enrichment steps of submit_picks additionally
  record a trace of the metadata calls they perform.
-/

namespace MovieNight

/-- Python string slicing s[:n] : the first n characters of s. -/
def pyTake (s : String) (n : Nat) : String :=
  (s.toList.take n).asString

/-- Python str.strip(): remove leading and trailing whitespace.
Written over the character list so that it reduces in the kernel. -/
def pyStrip (s : String) : String :=
  ((s.toList.dropWhile Char.isWhitespace).reverse.dropWhile
    Char.isWhitespace).reverse.asString

/-- Python a-or-b on an optional string with a string default:
the default wins when the value is absent or empty. -/
def orStr (a : Option String) (b : String) : String :=
  match a with
  | none => b
  | some s => if s = "" then b else s

/-- A movie record as built by the app: the dict with keys tmdb_id,
title, year, poster_path, rating. -/
structure Movie where
  tmdb_id : Option Nat
  title : String
  year : String
  poster_path : Option String
  rating : Option Rat
  deriving DecidableEq, Repr

/-- A pick: submitter name plus the list of (two) chosen movies. -/
structure Pick where
  name : String
  movies : List Movie
  deriving DecidableEq, Repr

/-- An event record as created by create_event. -/
structure Event where
  id : String
  title : String
  date : String
  picks : List Pick
  finalized : Bool
  selected_movie : Option Movie
  deriving DecidableEq, Repr

/-- The events document: event id to event, dictionary semantics
(association list, first entry with a key is the binding). -/
abbrev EventStore := List (String × Event)

/-- Dictionary read: first entry with the given key. -/
def storeGet (s : EventStore) (k : String) : Option Event :=
  match s.find? (fun p => p.1 = k) with
  | none => none
  | some p => some p.2

/-- Dictionary write: replace the entry when the key is present,
append otherwise (Python dict update keeps insertion order). -/
def storeSet (s : EventStore) (k : String) (e : Event) : EventStore :=
  if s.any (fun p => p.1 = k) then
    s.map (fun p => if p.1 = k then (k, e) else p)
  else
    s ++ [(k, e)]

/-- get_event from src/app.py: load the document and look the id up. -/
def get_event (s : EventStore) (event_id : String) : Option Event :=
  storeGet s event_id

/-- save_event from src/app.py: load the document, set the entry keyed
by the event id of the argument, write the document back. -/
def save_event (s : EventStore) (event : Event) : EventStore :=
  storeSet s event.id event

theorem find?_replace_self (s : EventStore) (k : String) (e : Event)
    (h : s.any (fun p => p.1 = k) = true) :
    (s.map (fun p => if p.1 = k then (k, e) else p)).find? (fun p => p.1 = k)
      = some (k, e) := by
  induction s with
  | nil => simp at h
  | cons hd tl ih =>
    by_cases hk : hd.1 = k
    · simp [List.find?_cons, hk]
    · have htl : tl.any (fun p => p.1 = k) = true := by
        simp [List.any_cons, hk] at h
        simpa using h
      simp only [List.map_cons, List.find?_cons, if_neg hk]
      have hd_ne : (decide (hd.1 = k)) = false := by simpa using hk
      rw [hd_ne]
      exact ih htl

theorem find?_replace_other (s : EventStore) (k : String) (e : Event)
    (k' : String) (hne : k' ≠ k) :
    (s.map (fun p => if p.1 = k then (k, e) else p)).find? (fun p => p.1 = k')
      = s.find? (fun p => p.1 = k') := by
  induction s with
  | nil => simp
  | cons hd tl ih =>
    by_cases hk : hd.1 = k
    · have h1 : (decide ((k, e).1 = k')) = false := by
        simp
        exact fun hh => hne hh.symm
      have h2 : (decide (hd.1 = k')) = false := by
        simp
        intro hh
        exact hne (hh ▸ hk)
      simp only [List.map_cons, hk, if_true, List.find?_cons, h1, h2]
      exact ih
    · simp only [List.map_cons, hk, if_false, List.find?_cons]
      cases hd1 : (decide (hd.1 = k')) with
      | true => rfl
      | false => exact ih

theorem storeGet_storeSet (s : EventStore) (k : String) (e : Event) (k' : String) :
    storeGet (storeSet s k e) k' = if k' = k then some e else storeGet s k' := by
  unfold storeGet storeSet
  by_cases hmem : s.any (fun p => p.1 = k) = true
  · rw [if_pos hmem]
    by_cases hk' : k' = k
    · subst hk'
      rw [find?_replace_self s k' e hmem]
      simp
    · rw [find?_replace_other s k e k' hk']
      simp [hk']
  · rw [if_neg hmem]
    have hnone : s.find? (fun p => p.1 = k) = none := by
      rw [List.find?_eq_none]
      intro x hx
      simp only [decide_eq_true_eq]
      intro hxk
      exact hmem (List.any_eq_true.mpr ⟨x, hx, by simpa using hxk⟩)
    rw [List.find?_append]
    by_cases hk' : k' = k
    · subst hk'
      have : s.find? (fun p => p.1 = k') = none := hnone
      rw [this]
      simp [List.find?_cons]
    · have hsingle : ([(k, e)] : EventStore).find? (fun p => p.1 = k') = none := by
        rw [List.find?_eq_none]
        intro x hx
        simp only [List.mem_singleton] at hx
        subst hx
        simp only [decide_eq_true_eq]
        exact fun hh => hk' hh.symm
      rw [hsingle, Option.or_none]
      simp [hk']

theorem storeGet_save_event (s : EventStore) (ev : Event) (k : String) :
    storeGet (save_event s ev) k = if k = ev.id then some ev else storeGet s k := by
  unfold save_event
  rw [storeGet_storeSet]

/-! ## TMDB metadata helpers -/

/-- The parsed JSON payload of one movie object as the code reads it:
only the keys accessed by m.get are modelled, each optional since
m.get returns None for a missing key. -/
structure TmdbMovieJson where
  id : Option Nat
  title : Option String
  release_date : Option String
  poster_path : Option String
  vote_average : Option Rat
  deriving DecidableEq, Repr

/-- The parsed payload of the search endpoint. The code reads it with
data.get with default [], so a missing results key is the empty list. -/
structure TmdbSearchJson where
  results : List TmdbMovieJson
  deriving DecidableEq, Repr

/-- Outcome of the HTTP GET performed by tmdb_get: ok with the parsed
payload, or error for any failure the call can raise (network error,
non-2xx status via raise_for_status, malformed JSON body). -/
abbrev Fetch (α : Type) := Except Unit α

/-- tmdb_movie_details from src/app.py, over the outcome of its single
tmdb_get call. Returns none for an empty id and swallows every fetch
failure into none. -/
def tmdb_movie_details (fetch : Fetch TmdbMovieJson) (tmdb_id : String) :
    Option Movie :=
  if tmdb_id = "" then none
  else
    match fetch with
    | .error _ => none
    | .ok m =>
        some { tmdb_id := m.id
               title := orStr m.title ""
               year := pyTake (orStr m.release_date "") 4
               poster_path := m.poster_path
               rating := m.vote_average }

/-- tmdb_search_first from src/app.py, over the outcome of its single
tmdb_get call. Trims the title, requires length at least 2, takes the
first search result, and swallows every fetch failure into none. -/
def tmdb_search_first (fetch : Fetch TmdbSearchJson) (title : String) :
    Option Movie :=
  let t := pyStrip title
  if t.length < 2 then none
  else
    match fetch with
    | .error _ => none
    | .ok data =>
        match data.results with
        | [] => none
        | m :: _ =>
            some { tmdb_id := m.id
                   title := orStr m.title t
                   year := pyTake (orStr m.release_date "") 4
                   poster_path := m.poster_path
                   rating := m.vote_average }

/-- One autocomplete result as the tmdb_search endpoint maps it: unlike
the other two helpers the title key carries m.get with no default. -/
structure Suggestion where
  tmdb_id : Option Nat
  title : Option String
  year : String
  poster_path : Option String
  rating : Option Rat
  deriving DecidableEq, Repr

def suggestionOfJson (m : TmdbMovieJson) : Suggestion :=
  { tmdb_id := m.id
    title := m.title
    year := pyTake (orStr m.release_date "") 4
    poster_path := m.poster_path
    rating := m.vote_average }

/-- tmdb_search from src/app.py (the autocomplete endpoint): trims q,
returns the empty result list when the trimmed length is below 2, and
otherwise calls tmdb_get with NO exception handling, so a fetch failure
propagates out of the handler instead of being swallowed. -/
def tmdb_search (fetch : Fetch TmdbSearchJson) (q : String) :
    Except Unit (List Suggestion) :=
  let q := pyStrip q
  if q.length < 2 then .ok []
  else
    match fetch with
    | .error e => .error e
    | .ok data => .ok ((data.results.take 8).map suggestionOfJson)

/-! ## Pick enrichment inside submit_picks -/

/-- The network environment the enrichment code runs against: for each
id or query, the outcome of the corresponding tmdb_get call. -/
structure MetadataService where
  detailsFetch : String → Fetch TmdbMovieJson
  searchFetch : String → Fetch TmdbSearchJson

/-- One metadata lookup performed while enriching a pick. -/
inductive MetaCall
  | details (tmdb_id : String)
  | search (query : String)
  deriving DecidableEq, Repr

/-- The per-movie enrichment block of submit_picks, instrumented with
the list of metadata lookups it performs, in call order:
m = tmdb_movie_details(ext_id) if ext_id else None;
if not m: m = tmdb_search_first(raw.strip());
if not m: m = the bare record with the trimmed title. -/
def enrichT (svc : MetadataService) (raw : String) (extId : Option String) :
    Movie × List MetaCall :=
  let step1 : Option Movie × List MetaCall :=
    match extId with
    | some tid =>
        if tid = "" then (none, [])
        else (tmdb_movie_details (svc.detailsFetch tid) tid, [MetaCall.details tid])
    | none => (none, [])
  match step1 with
  | (some m, tr) => (m, tr)
  | (none, tr) =>
      let t := pyStrip raw
      match tmdb_search_first (svc.searchFetch t) t with
      | some m => (m, tr ++ [MetaCall.search t])
      | none =>
          ({ tmdb_id := none, title := t, year := "", poster_path := none,
             rating := none }, tr ++ [MetaCall.search t])

/-- The enriched movie only (forgetting the instrumented trace). -/
def enrich (svc : MetadataService) (raw : String) (extId : Option String) :
    Movie :=
  (enrichT svc raw extId).1

/-! ## Request handlers -/

inductive SubmitResult
  | notFound
  | alreadyFinalized
  | invalidInput
  | ok
  deriving DecidableEq, Repr

inductive FinalizeResult
  | notFound
  | alreadyFinalized
  | noSubmissions
  | indexError
  | ok
  deriving DecidableEq, Repr

/-- create_event from src/app.py. The 8-hex-character id produced by
uuid.uuid4().hex sliced to 8 characters is an oracle argument. Returns
the created event and the persisted store. -/
def create_event (s : EventStore) (event_id : String) (title date : String) :
    Event × EventStore :=
  let event : Event :=
    { id := event_id, title := title, date := date, picks := [],
      finalized := false, selected_movie := none }
  (event, save_event s event)

/-- submit_picks from src/app.py: looks the event up (404 when absent),
rejects a finalized event, rejects an empty trimmed title, otherwise
enriches both movies, appends the pick and persists. The third
component is the list of metadata lookups performed. -/
def submit_picks (svc : MetadataService) (s : EventStore)
    (event_id name movie1 movie2 : String)
    (movie1_tmdb_id movie2_tmdb_id : Option String) :
    SubmitResult × EventStore × List MetaCall :=
  match get_event s event_id with
  | none => (SubmitResult.notFound, s, [])
  | some event =>
    if event.finalized then (SubmitResult.alreadyFinalized, s, [])
    else if pyStrip movie1 = "" || pyStrip movie2 = "" then
      (SubmitResult.invalidInput, s, [])
    else
      let r1 := enrichT svc movie1 movie1_tmdb_id
      let r2 := enrichT svc movie2 movie2_tmdb_id
      let pick : Pick := { name := pyStrip name, movies := [r1.1, r2.1] }
      let event2 := { event with picks := event.picks ++ [pick] }
      (SubmitResult.ok, save_event s event2, r1.2 ++ r2.2)

/-- random.choice(seq) given a uniformly random natural r below the
sequence length: the element at index r. An empty sequence raises
IndexError, modelled as none. -/
def randomChoice (l : List Movie) (r : Nat) : Option Movie :=
  l.get? (r % l.length)

/-- finalize_event from src/app.py: looks the event up (404 when
absent), rejects a finalized event, rejects an empty picks list,
otherwise flattens all movies of all picks in order, selects one with
random.choice, sets selected_movie and finalized and persists. -/
def finalize_event (s : EventStore) (event_id : String) (r : Nat) :
    FinalizeResult × EventStore :=
  match get_event s event_id with
  | none => (FinalizeResult.notFound, s)
  | some event =>
    if event.finalized then (FinalizeResult.alreadyFinalized, s)
    else if event.picks = [] then (FinalizeResult.noSubmissions, s)
    else
      let all_movies := event.picks.flatMap (fun p => p.movies)
      match randomChoice all_movies r with
      | none => (FinalizeResult.indexError, s)
      | some m =>
          (FinalizeResult.ok,
           save_event s { event with selected_movie := some m, finalized := true })

/-! ## Derived notions used by the statements -/

/-- The environment where every metadata call fails (service
unreachable): both fetches are the error outcome. -/
def unreachableService : MetadataService :=
  { detailsFetch := fun _ => Except.error ()
    searchFetch := fun _ => Except.error () }

/-- The bare movie record synthesized when no metadata is found. -/
def bareMovie (raw : String) : Movie :=
  { tmdb_id := none, title := pyStrip raw, year := "", poster_path := none,
    rating := none }

/-- A catalog movie object whose release_date value (defaulted to the
empty string as the code does) is empty or at least 4 characters long,
as every real TMDB payload satisfies. -/
def goodDate (m : TmdbMovieJson) : Prop :=
  orStr m.release_date "" = "" ∨ 4 ≤ (orStr m.release_date "").length

/-- One application step: some handler ran against the store, with
arbitrary request data and arbitrary oracle outcomes. -/
inductive Step : EventStore → EventStore → Prop
  | create (s : EventStore) (event_id title date : String) :
      Step s (create_event s event_id title date).2
  | submit (svc : MetadataService) (s : EventStore)
      (event_id name movie1 movie2 : String) (id1 id2 : Option String) :
      Step s (submit_picks svc s event_id name movie1 movie2 id1 id2).2.1
  | finalize (s : EventStore) (event_id : String) (r : Nat) :
      Step s (finalize_event s event_id r).2

/-- A store reachable from the empty document by handler runs. -/
def Reachable (s : EventStore) : Prop :=
  Relation.ReflTransGen Step [] s

/-- The data-model invariant of section 3 of the spec: an event holds a
selected movie exactly when it is finalized. -/
def SelectedIffFinalized (s : EventStore) : Prop :=
  ∀ k e, storeGet s k = some e →
    (e.selected_movie.isSome = true ↔ e.finalized = true)

/-! ## Theorems -/

/-- C8: saving an Event with save_event and then loading it by its id
with get_event returns a value equal in all fields to the one saved:
the round trip through the store is the identity. -/
theorem save_event_get_event_roundtrip (s : EventStore) (e : Event) :
    get_event (save_event s e) e.id = some e := by
  unfold get_event save_event
  rw [storeGet_storeSet]
  simp

/-- C4: once an event is finalized, every subsequent submit_picks on it
fails with AlreadyFinalized, performs no metadata lookup and leaves the
store (hence the event, its finalized flag and its picks) unchanged,
and every subsequent finalize_event on it fails with AlreadyFinalized
and leaves the store unchanged. -/
theorem finalized_event_rejects_all_mutation
    (svc : MetadataService) (s : EventStore)
    (event_id name movie1 movie2 : String) (id1 id2 : Option String)
    (r : Nat) (e : Event)
    (hget : get_event s event_id = some e)
    (hfin : e.finalized = true) :
    submit_picks svc s event_id name movie1 movie2 id1 id2
        = (SubmitResult.alreadyFinalized, s, [])
    ∧ finalize_event s event_id r = (FinalizeResult.alreadyFinalized, s) := by
  constructor
  · unfold submit_picks
    rw [hget]
    simp [hfin]
  · unfold finalize_event
    rw [hget]
    simp [hfin]

theorem finalized_event_rejects_all_mutation_witness :
    submit_picks unreachableService
        [("e1", { id := "e1", title := "Night", date := "2026-01-01",
                  picks := [{ name := "bob", movies := [bareMovie "A", bareMovie "B"] }],
                  finalized := true, selected_movie := some (bareMovie "A") })]
        "e1" "carol" "C" "D" none none
      = (SubmitResult.alreadyFinalized,
         [("e1", { id := "e1", title := "Night", date := "2026-01-01",
                   picks := [{ name := "bob", movies := [bareMovie "A", bareMovie "B"] }],
                   finalized := true, selected_movie := some (bareMovie "A") })], [])
    ∧ finalize_event
        [("e1", { id := "e1", title := "Night", date := "2026-01-01",
                  picks := [{ name := "bob", movies := [bareMovie "A", bareMovie "B"] }],
                  finalized := true, selected_movie := some (bareMovie "A") })]
        "e1" 0
      = (FinalizeResult.alreadyFinalized,
         [("e1", { id := "e1", title := "Night", date := "2026-01-01",
                   picks := [{ name := "bob", movies := [bareMovie "A", bareMovie "B"] }],
                   finalized := true, selected_movie := some (bareMovie "A") })]) :=
  finalized_event_rejects_all_mutation unreachableService _ "e1" "carol" "C" "D"
    none none 0 _ rfl rfl

/-- C7: every failing submit_picks or finalize_event call leaves the
stored document unchanged; in particular finalize_event on an open
event with zero picks fails with NoSubmissions and the event is still
found unchanged (open, with its null selected movie) afterwards. -/
theorem failing_calls_leave_event_unchanged
    (svc : MetadataService) (s : EventStore)
    (event_id name movie1 movie2 : String) (id1 id2 : Option String) (r : Nat) :
    ((submit_picks svc s event_id name movie1 movie2 id1 id2).1 ≠ SubmitResult.ok →
        (submit_picks svc s event_id name movie1 movie2 id1 id2).2.1 = s)
    ∧ ((finalize_event s event_id r).1 ≠ FinalizeResult.ok →
        (finalize_event s event_id r).2 = s)
    ∧ (∀ e, get_event s event_id = some e → e.finalized = false →
        e.picks = [] →
        finalize_event s event_id r = (FinalizeResult.noSubmissions, s)
        ∧ get_event (finalize_event s event_id r).2 event_id = some e) := by
  refine ⟨?_, ?_, ?_⟩
  · intro hne
    unfold submit_picks at hne ⊢
    cases hget : get_event s event_id with
    | none => rfl
    | some e =>
      by_cases hfin : e.finalized = true
      · simp [hfin]
      · by_cases hm : (pyStrip movie1 = "" || pyStrip movie2 = "") = true
        · simp [hfin, hm]
        · exfalso
          apply hne
          rw [hget]
          simp [hfin, hm]
  · intro hne
    unfold finalize_event at hne ⊢
    cases hget : get_event s event_id with
    | none => rfl
    | some e =>
      by_cases hfin : e.finalized = true
      · simp [hfin]
      · by_cases hp : e.picks = []
        · simp [hfin, hp]
        · cases hch : randomChoice (e.picks.flatMap (fun p => p.movies)) r with
          | none => simp [hfin, hp, hch]
          | some m =>
            exfalso
            apply hne
            rw [hget]
            simp [hfin, hp, hch]
  · intro e hget hfin hp
    have h1 : finalize_event s event_id r = (FinalizeResult.noSubmissions, s) := by
      unfold finalize_event
      rw [hget]
      simp [hfin, hp]
    exact ⟨h1, by rw [h1]; exact hget⟩

theorem failing_calls_leave_event_unchanged_witness :
    finalize_event
        [("e1", { id := "e1", title := "Night", date := "2026-01-01",
                  picks := [], finalized := false, selected_movie := none })]
        "e1" 0
      = (FinalizeResult.noSubmissions,
         [("e1", { id := "e1", title := "Night", date := "2026-01-01",
                   picks := [], finalized := false, selected_movie := none })])
    ∧ get_event
        (finalize_event
          [("e1", { id := "e1", title := "Night", date := "2026-01-01",
                    picks := [], finalized := false, selected_movie := none })]
          "e1" 0).2 "e1"
      = some { id := "e1", title := "Night", date := "2026-01-01",
               picks := [], finalized := false, selected_movie := none } :=
  (failing_calls_leave_event_unchanged unreachableService _ "e1" "n" "A" "B"
      none none 0).2.2 _ rfl rfl rfl

/-- C2: submit_picks applies its failure checks in the order NotFound
(unknown event id, regardless of every other argument), then
AlreadyFinalized (regardless of the titles), then InvalidInput (either
raw title empty after trimming), and a call failing any of these
checks performs no metadata lookup at all (empty trace) and leaves the
store unchanged. -/
theorem submit_picks_check_order (svc : MetadataService) (s : EventStore)
    (event_id name movie1 movie2 : String) (id1 id2 : Option String) :
    (get_event s event_id = none →
        submit_picks svc s event_id name movie1 movie2 id1 id2
          = (SubmitResult.notFound, s, []))
    ∧ (∀ e, get_event s event_id = some e → e.finalized = true →
        submit_picks svc s event_id name movie1 movie2 id1 id2
          = (SubmitResult.alreadyFinalized, s, []))
    ∧ (∀ e, get_event s event_id = some e → e.finalized = false →
        (pyStrip movie1 = "" ∨ pyStrip movie2 = "") →
        submit_picks svc s event_id name movie1 movie2 id1 id2
          = (SubmitResult.invalidInput, s, [])) := by
  refine ⟨?_, ?_, ?_⟩
  · intro hget
    unfold submit_picks
    rw [hget]
  · intro e hget hfin
    unfold submit_picks
    rw [hget]
    simp [hfin]
  · intro e hget hfin hm
    unfold submit_picks
    rw [hget]
    have hb : (pyStrip movie1 = "" || pyStrip movie2 = "") = true := by
      cases hm with
      | inl h => simp [h]
      | inr h => simp [h]
    simp [hfin, hb]

theorem submit_picks_check_order_witness :
    submit_picks unreachableService
        [("e1", { id := "e1", title := "Night", date := "2026-01-01",
                  picks := [], finalized := false, selected_movie := none })]
        "e1" "bob" "   " "Heat" none none
      = (SubmitResult.invalidInput,
         [("e1", { id := "e1", title := "Night", date := "2026-01-01",
                   picks := [], finalized := false, selected_movie := none })], []) :=
  (submit_picks_check_order unreachableService _ "e1" "bob" "   " "Heat"
      none none).2.2 _ rfl rfl (Or.inl (by decide))

theorem tmdb_search_first_error (u : Unit) (x : String) :
    tmdb_search_first (Except.error u) x = none := by
  unfold tmdb_search_first
  by_cases h : (pyStrip x).length < 2
  · simp [h]
  · simp [h]

theorem pool_length_two_mul (picks : List Pick)
    (h2 : ∀ p ∈ picks, p.movies.length = 2) :
    (picks.flatMap (fun p => p.movies)).length = 2 * picks.length := by
  rw [List.length_flatMap]
  simp only [Function.comp_def]
  have hmap : picks.map (fun p => p.movies.length) = picks.map (fun _ => 2) :=
    List.map_congr_left h2
  rw [hmap]
  have hconst : picks.map (fun _ => 2) = List.replicate picks.length 2 := by
    induction picks with
    | nil => rfl
    | cons hd tl ih => simp [List.replicate_succ, ih]
  rw [hconst, List.sum_replicate, smul_eq_mul]
  omega

/-- C1: on an open event with a non-empty picks list where every pick
holds exactly 2 movies, finalize_event draws from the pool obtained by
flattening all movies of all picks in pick order (movie 1 before
movie 2 within a pick, as stored): the pool has size 2 times the
number of picks, the oracle index r below the pool size selects
exactly the pool element at position r, the event is persisted with
that element as selected_movie and finalized set, and for every oracle
value whatsoever the selected movie is an element of the pool, never a
value outside it. -/
theorem finalize_event_selects_from_pool
    (s : EventStore) (event_id : String) (e : Event) (r : Nat)
    (hget : get_event s event_id = some e)
    (hid : e.id = event_id)
    (hopen : e.finalized = false)
    (hpicks : e.picks ≠ [])
    (h2 : ∀ p ∈ e.picks, p.movies.length = 2)
    (hr : r < 2 * e.picks.length) :
    (e.picks.flatMap (fun p => p.movies)).length = 2 * e.picks.length
    ∧ (∃ m, (e.picks.flatMap (fun p => p.movies)).get? r = some m
        ∧ m ∈ e.picks.flatMap (fun p => p.movies)
        ∧ finalize_event s event_id r
            = (FinalizeResult.ok,
               save_event s
                 { e with selected_movie := some m, finalized := true })
        ∧ get_event (finalize_event s event_id r).2 event_id
            = some { e with selected_movie := some m, finalized := true })
    ∧ (∀ r' : Nat, ∃ m ∈ e.picks.flatMap (fun p => p.movies),
        finalize_event s event_id r'
          = (FinalizeResult.ok,
             save_event s
               { e with selected_movie := some m, finalized := true })) := by
  have hlen : (e.picks.flatMap (fun p => p.movies)).length = 2 * e.picks.length :=
    pool_length_two_mul e.picks h2
  have hpos : 0 < (e.picks.flatMap (fun p => p.movies)).length := by
    rw [hlen]
    have : 0 < e.picks.length := List.length_pos.mpr hpicks
    omega
  have hrun : ∀ r'' : Nat,
      finalize_event s event_id r''
        = (FinalizeResult.ok,
           save_event s
             { e with
               selected_movie :=
                 some ((e.picks.flatMap (fun p => p.movies)).get
                   ⟨r'' % (e.picks.flatMap (fun p => p.movies)).length,
                    Nat.mod_lt _ hpos⟩),
               finalized := true }) := by
    intro r''
    unfold finalize_event
    rw [hget]
    have hch : randomChoice (e.picks.flatMap (fun p => p.movies)) r''
        = some ((e.picks.flatMap (fun p => p.movies)).get
            ⟨r'' % (e.picks.flatMap (fun p => p.movies)).length,
             Nat.mod_lt _ hpos⟩) := by
      unfold randomChoice
      exact List.get?_eq_get (Nat.mod_lt _ hpos)
    simp [hopen, hpicks, hch]
  refine ⟨hlen, ?_, ?_⟩
  · have hrlen : r < (e.picks.flatMap (fun p => p.movies)).length := by
      rw [hlen]; exact hr
    have hmod : r % (e.picks.flatMap (fun p => p.movies)).length = r :=
      Nat.mod_eq_of_lt hrlen
    have hupd : (e.picks.flatMap (fun p => p.movies)).get
          ⟨r % (e.picks.flatMap (fun p => p.movies)).length, Nat.mod_lt _ hpos⟩
        = (e.picks.flatMap (fun p => p.movies)).get ⟨r, hrlen⟩ :=
      congrArg _ (Fin.ext hmod)
    have h1 := hrun r
    rw [hupd] at h1
    refine ⟨(e.picks.flatMap (fun p => p.movies)).get ⟨r, hrlen⟩, ?_, ?_, h1, ?_⟩
    · exact List.get?_eq_get hrlen
    · exact List.get_mem _ _ _
    · rw [h1]
      show get_event (save_event s _) event_id = _
      unfold get_event save_event
      rw [storeGet_storeSet]
      simp [hid]
  · intro r'
    exact ⟨_, List.get_mem _ _ _, hrun r'⟩

theorem finalize_event_selects_from_pool_witness :
    ∃ m, ([({ name := "bob", movies := [bareMovie "AA", bareMovie "BB"] } : Pick)].flatMap
            (fun p => p.movies)).get? 1 = some m
      ∧ m ∈ [({ name := "bob", movies := [bareMovie "AA", bareMovie "BB"] } : Pick)].flatMap
            (fun p => p.movies)
      ∧ finalize_event
          [("e1", { id := "e1", title := "Night", date := "2026-01-01",
                    picks := [{ name := "bob", movies := [bareMovie "AA", bareMovie "BB"] }],
                    finalized := false, selected_movie := none })] "e1" 1
          = (FinalizeResult.ok,
             save_event
               [("e1", { id := "e1", title := "Night", date := "2026-01-01",
                         picks := [{ name := "bob", movies := [bareMovie "AA", bareMovie "BB"] }],
                         finalized := false, selected_movie := none })]
               { id := "e1", title := "Night", date := "2026-01-01",
                 picks := [{ name := "bob", movies := [bareMovie "AA", bareMovie "BB"] }],
                 finalized := true, selected_movie := some m })
      ∧ get_event
          (finalize_event
            [("e1", { id := "e1", title := "Night", date := "2026-01-01",
                      picks := [{ name := "bob", movies := [bareMovie "AA", bareMovie "BB"] }],
                      finalized := false, selected_movie := none })] "e1" 1).2 "e1"
          = some { id := "e1", title := "Night", date := "2026-01-01",
                   picks := [{ name := "bob", movies := [bareMovie "AA", bareMovie "BB"] }],
                   finalized := true, selected_movie := some m } :=
  (finalize_event_selects_from_pool
    [("e1", { id := "e1", title := "Night", date := "2026-01-01",
              picks := [{ name := "bob", movies := [bareMovie "AA", bareMovie "BB"] }],
              finalized := false, selected_movie := none })]
    "e1"
    { id := "e1", title := "Night", date := "2026-01-01",
      picks := [{ name := "bob", movies := [bareMovie "AA", bareMovie "BB"] }],
      finalized := false, selected_movie := none }
    1 rfl rfl rfl (by decide) (by decide) (by decide)).2.1

/-- C5: pick enrichment is total and degrades in the documented order:
when the external id is present and its lookup returns a movie, that
movie is the result; whenever the id step yields nothing (id absent,
id empty, or lookup miss), a successful title search on the trimmed
raw title wins; when that also misses, the result is exactly the bare
record with the trimmed raw title and all other fields null or empty.
In particular, with the metadata service unreachable and no id, enrich
of a non-empty title returns exactly the bare record and no error
escapes. -/
theorem enrich_always_returns_movie
    (svc : MetadataService) (raw : String) (extId : Option String) :
    (∀ tid m, extId = some tid → ¬ tid = "" →
        tmdb_movie_details (svc.detailsFetch tid) tid = some m →
        enrich svc raw extId = m)
    ∧ ((extId = none ∨ extId = some "" ∨
          ∃ tid, extId = some tid ∧ tmdb_movie_details (svc.detailsFetch tid) tid = none) →
        (∀ m, tmdb_search_first (svc.searchFetch (pyStrip raw)) (pyStrip raw) = some m →
            enrich svc raw extId = m)
        ∧ (tmdb_search_first (svc.searchFetch (pyStrip raw)) (pyStrip raw) = none →
            enrich svc raw extId
              = { tmdb_id := none, title := pyStrip raw, year := "",
                  poster_path := none, rating := none }))
    ∧ (¬ pyStrip raw = "" →
        enrich unreachableService raw none
          = { tmdb_id := none, title := pyStrip raw, year := "",
              poster_path := none, rating := none }) := by
  refine ⟨?_, ?_, ?_⟩
  · intro tid m hext hne hdet
    subst hext
    unfold enrich enrichT
    simp [if_neg hne, hdet]
  · intro hcase
    rcases hcase with h | h | ⟨tid, hext, hdet⟩
    · subst h
      constructor
      · intro m hm
        unfold enrich enrichT
        simp [hm]
      · intro hm
        unfold enrich enrichT
        simp [hm]
    · subst h
      constructor
      · intro m hm
        unfold enrich enrichT
        simp [hm]
      · intro hm
        unfold enrich enrichT
        simp [hm]
    · subst hext
      by_cases htid : tid = ""
      · constructor
        · intro m hm
          unfold enrich enrichT
          simp [htid, hm]
        · intro hm
          unfold enrich enrichT
          simp [htid, hm]
      · constructor
        · intro m hm
          unfold enrich enrichT
          simp [if_neg htid, hdet, hm]
        · intro hm
          unfold enrich enrichT
          simp [if_neg htid, hdet, hm]
  · intro _
    unfold enrich enrichT
    simp [unreachableService, tmdb_search_first_error]

theorem enrich_always_returns_movie_witness :
    enrich unreachableService "Inception" none
      = { tmdb_id := none, title := "Inception", year := "",
          poster_path := none, rating := none } :=
  (enrich_always_returns_movie unreachableService "Inception" none).2.2 (by decide)

theorem step_preserves_invariant {s s' : EventStore}
    (hstep : Step s s') (hinv : SelectedIffFinalized s) :
    SelectedIffFinalized s' := by
  cases hstep with
  | create s event_id title date =>
    intro k e hget
    have hget2 : storeGet
        (save_event s
          { id := event_id, title := title, date := date, picks := [],
            finalized := false, selected_movie := none }) k = some e := hget
    rw [storeGet_save_event] at hget2
    by_cases hk : k = event_id
    · rw [if_pos hk] at hget2
      cases hget2
      simp
    · rw [if_neg hk] at hget2
      exact hinv k e hget2
  | submit svc s event_id name movie1 movie2 id1 id2 =>
    intro k e hget
    unfold submit_picks at hget
    cases hge : get_event s event_id with
    | none =>
      rw [hge] at hget
      exact hinv k e hget
    | some e0 =>
      rw [hge] at hget
      dsimp only at hget
      by_cases hfin : e0.finalized = true
      · rw [if_pos hfin] at hget
        exact hinv k e hget
      · rw [if_neg hfin] at hget
        by_cases hm : (pyStrip movie1 = "" || pyStrip movie2 = "") = true
        · rw [if_pos hm] at hget
          exact hinv k e hget
        · rw [if_neg hm] at hget
          have h0 := hinv event_id e0 hge
          dsimp only at hget
          rw [storeGet_save_event] at hget
          by_cases hk : k = e0.id
          · rw [if_pos hk] at hget
            cases hget
            simpa using h0
          · rw [if_neg hk] at hget
            exact hinv k e hget
  | finalize s event_id r =>
    intro k e hget
    unfold finalize_event at hget
    cases hge : get_event s event_id with
    | none =>
      rw [hge] at hget
      exact hinv k e hget
    | some e0 =>
      rw [hge] at hget
      dsimp only at hget
      by_cases hfin : e0.finalized = true
      · rw [if_pos hfin] at hget
        exact hinv k e hget
      · rw [if_neg hfin] at hget
        by_cases hp : e0.picks = []
        · rw [if_pos hp] at hget
          exact hinv k e hget
        · rw [if_neg hp] at hget
          cases hch : randomChoice (e0.picks.flatMap (fun p => p.movies)) r with
          | none =>
            rw [hch] at hget
            exact hinv k e hget
          | some m =>
            rw [hch] at hget
            dsimp only at hget
            rw [storeGet_save_event] at hget
            by_cases hk : k = e0.id
            · rw [if_pos hk] at hget
              cases hget
              simp
            · rw [if_neg hk] at hget
              exact hinv k e hget

/-- C3: for every store reachable from the empty document by any
sequence of create_event, submit_picks and finalize_event runs, every
stored event holds a non-null selected_movie exactly when its
finalized flag is true. -/
theorem reachable_selected_iff_finalized (s : EventStore) (h : Reachable s) :
    ∀ k e, get_event s k = some e →
      (e.selected_movie.isSome = true ↔ e.finalized = true) := by
  have hinv : SelectedIffFinalized s := by
    induction h with
    | refl =>
      intro k e hget
      simp [storeGet] at hget
    | tail _ hbc ih => exact step_preserves_invariant hbc ih
  exact hinv

theorem reachable_selected_iff_finalized_witness :
    (({ id := "ab12cd34", title := "Night", date := "2026-01-01", picks := [],
        finalized := false, selected_movie := none } : Event).selected_movie.isSome
          = true)
      ↔ (({ id := "ab12cd34", title := "Night", date := "2026-01-01", picks := [],
            finalized := false, selected_movie := none } : Event).finalized = true) :=
  reachable_selected_iff_finalized _
    (Relation.ReflTransGen.single (Step.create [] "ab12cd34" "Night" "2026-01-01"))
    "ab12cd34" _ rfl

theorem pyTake_length_le (s : String) (n : Nat) : (pyTake s n).length ≤ n := by
  have h : (pyTake s n).length = (s.toList.take n).length := rfl
  rw [h, List.length_take]
  exact Nat.min_le_left _ _

theorem pyTake_length_of_le (s : String) (n : Nat) (h : n ≤ s.length) :
    (pyTake s n).length = n := by
  have h0 : (pyTake s n).length = (s.toList.take n).length := rfl
  have h1 : s.toList.length = s.length := rfl
  rw [h0, List.length_take, h1]
  exact Nat.min_eq_left h

/-- C10 counterexample: over an arbitrary catalog response the year
field is NOT always a 4-character string or empty: a payload whose
release_date is the 2-character string 19 yields a movie whose year is
19, of length 2. -/
theorem metadata_year_not_4_or_empty_cex :
    ∃ mv, tmdb_movie_details
        (Except.ok { id := some 5, title := some "T", release_date := some "19",
                     poster_path := none, vote_average := none }) "5" = some mv
      ∧ ¬ (mv.year.length = 4 ∨ mv.year = "") := by
  refine ⟨{ tmdb_id := some 5, title := "T", year := "19", poster_path := none,
            rating := none }, ?_, ?_⟩
  · rfl
  · decide

/-- C10 amended: every movie or suggestion produced by
tmdb_movie_details, tmdb_search_first or tmdb_search carries a year of
length at most 4 (the first 4 characters of the release date), and the
year is exactly 4 characters or empty whenever the payload, with its
release_date defaulted to the empty string as the code does, has a
release_date that is empty or at least 4 characters long, as every
well-formed catalog response does. -/
theorem metadata_year_length :
    (∀ (fetch : Fetch TmdbMovieJson) (tid : String) (mv : Movie),
        tmdb_movie_details fetch tid = some mv →
        mv.year.length ≤ 4
        ∧ (∀ j, fetch = Except.ok j → goodDate j →
            (mv.year.length = 4 ∨ mv.year = "")))
    ∧ (∀ (fetch : Fetch TmdbSearchJson) (t : String) (mv : Movie),
        tmdb_search_first fetch t = some mv →
        mv.year.length ≤ 4
        ∧ (∀ data, fetch = Except.ok data → (∀ j ∈ data.results, goodDate j) →
            (mv.year.length = 4 ∨ mv.year = "")))
    ∧ (∀ (fetch : Fetch TmdbSearchJson) (q : String) (l : List Suggestion),
        tmdb_search fetch q = Except.ok l →
        ∀ sg ∈ l, sg.year.length ≤ 4
          ∧ (∀ data, fetch = Except.ok data → (∀ j ∈ data.results, goodDate j) →
              (sg.year.length = 4 ∨ sg.year = ""))) := by
  have hyear : ∀ j0 : TmdbMovieJson, goodDate j0 →
      ((pyTake (orStr j0.release_date "") 4).length = 4
        ∨ pyTake (orStr j0.release_date "") 4 = "") := by
    intro j0 hgd
    cases hgd with
    | inl hempty =>
      right
      rw [hempty]
      rfl
    | inr hlong =>
      left
      exact pyTake_length_of_le _ _ hlong
  refine ⟨?_, ?_, ?_⟩
  · intro fetch tid mv hmv
    unfold tmdb_movie_details at hmv
    by_cases htid : tid = ""
    · simp [htid] at hmv
    · rw [if_neg htid] at hmv
      cases fetch with
      | error u => simp at hmv
      | ok j0 =>
        dsimp only at hmv
        cases hmv
        refine ⟨pyTake_length_le _ _, ?_⟩
        intro j hj hgd
        cases hj
        exact hyear j0 hgd
  · intro fetch t mv hmv
    unfold tmdb_search_first at hmv
    by_cases ht : (pyStrip t).length < 2
    · simp [ht] at hmv
    · rw [if_neg ht] at hmv
      cases fetch with
      | error u => simp at hmv
      | ok data0 =>
        dsimp only at hmv
        cases hres : data0.results with
        | nil =>
          rw [hres] at hmv
          simp at hmv
        | cons j0 rest =>
          rw [hres] at hmv
          dsimp only at hmv
          cases hmv
          refine ⟨pyTake_length_le _ _, ?_⟩
          intro data hd hall
          cases hd
          exact hyear j0 (hall j0 (by rw [hres]; exact List.mem_cons_self _ _))
  · intro fetch q l hl sg hsg
    unfold tmdb_search at hl
    by_cases hq : (pyStrip q).length < 2
    · simp only [hq, if_pos] at hl
      cases hl
      simp at hsg
    · rw [if_neg hq] at hl
      cases fetch with
      | error u => simp at hl
      | ok data0 =>
        dsimp only at hl
        cases hl
        rcases List.mem_map.mp hsg with ⟨j, hjmem, hj⟩
        cases hj
        refine ⟨pyTake_length_le _ _, ?_⟩
        intro data hd hall
        cases hd
        exact hyear j (hall j (List.take_subset _ _ hjmem))

theorem metadata_year_length_witness :
    ({ tmdb_id := some 27205, title := "Inception", year := "2010",
       poster_path := none, rating := none } : Movie).year.length ≤ 4 :=
  ((metadata_year_length).1
    (Except.ok { id := some 27205, title := some "Inception",
                 release_date := some "2010-07-16", poster_path := none,
                 vote_average := none })
    "27205" _ rfl).1

/-- C6 counterexample: when the remote call fails, the autocomplete
endpoint tmdb_search does NOT return the empty list: the failure
propagates out (the code has no try-except around its tmdb_get call),
refuting the claim that any failure yields the empty list. -/
theorem tmdb_search_propagates_failure_cex :
    tmdb_search (Except.error ()) "ab" = Except.error ()
    ∧ ¬ tmdb_search (Except.error ()) "ab" = Except.ok [] := by
  constructor
  · rfl
  · intro h
    rw [show tmdb_search (Except.error ()) "ab" = Except.error () from rfl] at h
    exact Except.noConfusion h

/-- C6 amended: tmdb_search returns the empty result list when the
trimmed text is shorter than 2 characters, returns at most 8 mapped
results on a successful remote call, and on a failed remote call
propagates the error to its caller instead of returning the empty
list. -/
theorem tmdb_search_spec (fetch : Fetch TmdbSearchJson) (q : String) :
    ((pyStrip q).length < 2 → tmdb_search fetch q = Except.ok [])
    ∧ (2 ≤ (pyStrip q).length →
        ∀ u, fetch = Except.error u → tmdb_search fetch q = Except.error u)
    ∧ (∀ data, fetch = Except.ok data →
        ∃ l, tmdb_search fetch q = Except.ok l ∧ l.length ≤ 8) := by
  refine ⟨?_, ?_, ?_⟩
  · intro hq
    unfold tmdb_search
    simp [hq]
  · intro hq u hu
    subst hu
    have hq2 : ¬ (pyStrip q).length < 2 := by omega
    unfold tmdb_search
    simp [hq2]
  · intro data hd
    subst hd
    by_cases hq : (pyStrip q).length < 2
    · refine ⟨[], ?_, by simp⟩
      unfold tmdb_search
      simp [hq]
    · refine ⟨(data.results.take 8).map suggestionOfJson, ?_, ?_⟩
      · unfold tmdb_search
        simp [hq]
      · rw [List.length_map, List.length_take]
        exact Nat.min_le_left _ _

theorem tmdb_search_spec_witness :
    tmdb_search (Except.error ()) "a" = Except.ok [] :=
  (tmdb_search_spec (Except.error ()) "a").1 (by decide)

/-- C9 counterexample: the id handed to create_event by the random
oracle is not checked against existing events: creating with an id
that equals the id of a stored event replaces that event, so create
does not always preserve existing events. -/
theorem create_event_overwrites_cex :
    get_event
        (create_event
          [("deadbeef",
            { id := "deadbeef", title := "Old", date := "2026-01-01",
              picks := [{ name := "bob", movies := [bareMovie "AA", bareMovie "BB"] }],
              finalized := true, selected_movie := some (bareMovie "AA") })]
          "deadbeef" "New" "2026-02-02").2 "deadbeef"
      = some { id := "deadbeef", title := "New", date := "2026-02-02", picks := [],
               finalized := false, selected_movie := none }
    ∧ ¬ get_event
        (create_event
          [("deadbeef",
            { id := "deadbeef", title := "Old", date := "2026-01-01",
              picks := [{ name := "bob", movies := [bareMovie "AA", bareMovie "BB"] }],
              finalized := true, selected_movie := some (bareMovie "AA") })]
          "deadbeef" "New" "2026-02-02").2 "deadbeef"
      = some { id := "deadbeef", title := "Old", date := "2026-01-01",
               picks := [{ name := "bob", movies := [bareMovie "AA", bareMovie "BB"] }],
               finalized := true, selected_movie := some (bareMovie "AA") } := by
  constructor
  · rfl
  · decide

/-- C9 amended: create_event initializes a new event in state OPEN with
empty picks and null selected_movie, persists it keyed by the id the
oracle produced, and returns it; every event stored under a different
id is untouched, but the id is not checked for uniqueness, so a
colliding id overwrites the event stored under it. -/
theorem create_event_spec (s : EventStore) (event_id title date : String) :
    (create_event s event_id title date).1
      = { id := event_id, title := title, date := date, picks := [],
          finalized := false, selected_movie := none }
    ∧ get_event (create_event s event_id title date).2 event_id
      = some (create_event s event_id title date).1
    ∧ (∀ k, ¬ k = event_id →
        get_event (create_event s event_id title date).2 k = get_event s k) := by
  refine ⟨rfl, ?_, ?_⟩
  · show storeGet (save_event s _) event_id = _
    rw [storeGet_save_event]
    simp [create_event]
  · intro k hk
    show storeGet (save_event s _) k = _
    rw [storeGet_save_event]
    rw [if_neg hk]
    rfl

theorem create_event_spec_witness :
    get_event (create_event [] "ab12cd34" "Night" "2026-01-01").2 "zzzz"
      = get_event [] "zzzz" :=
  (create_event_spec [] "ab12cd34" "Night" "2026-01-01").2.2 "zzzz" (by decide)

end MovieNight
